import Mathlib

/-!
# Verification of the SmileCX frontend-starter HTTP request adapter

Shallow embedding of `src/libs/api/api-fetch.ts` (class `ApiFetch`) and the
interfaces it implements (`IApiResponse`, `IApiError`, `IApiConf`).

Modelling conventions:
* JavaScript promises that always resolve are total Lean functions; a code path
  that throws to the caller is an `Except.error`.
* The transport (`fetch` plus the subsequent `response.json()` / `response.text()`
  decode) is abstracted as a `FetchBehavior` value: either the transport throws a
  JavaScript value, or it delivers a response whose body decode yields
  `Except.ok`/`Except.error`.
* Machine-level platform primitives used by the adapter are modelled on the
  fragment of behaviour the adapter exercises: `parseInt(s, 10)`, the falsiness
  of empty strings, case-insensitive `Headers.get`, `Date` parsing (an oracle
  `String → Option Int`, `none` standing for an invalid date / `NaN` time), and
  the WHATWG `URL` constructor restricted to `http`/`https` URLs (any other
  input is a parse failure, which models the thrown `TypeError`; the http(s)
  fragment is the one reachable from this adapter's http(s) base URLs).
* Instance fields `serverDateDiff` and `controller` become an explicit
  `AdapterState` threaded through the operations; controllers are identified by
  numeric ids.
-/

namespace ApiFetchSpec

/-- Configuration record, from `IApiConf` (`apiUrl: string; token?: string`). -/
structure IApiConf where
  apiUrl : String
  token : Option String
deriving Repr, DecidableEq

/-- Error payload, from `IApiError` (`message; status?; statusText?`). -/
structure IApiError where
  message : String
  status : Option Nat := none
  statusText : Option String := none
deriving Repr, DecidableEq

/-- Outcome record, from `IApiResponse<T>`
(`ok; status?; data?; error?; total?; skipped?; link?; serverDateDiff?`). -/
structure IApiResponse (T : Type) where
  ok : Bool
  status : Option Nat := none
  data : Option T := none
  error : Option IApiError := none
  total : Option Nat := none
  skipped : Option Nat := none
  link : Option String := none
  serverDateDiff : Option Int := none
deriving Repr, DecidableEq

/-- Model of JavaScript `String.prototype.startsWith`. -/
def strStartsWith (s p : String) : Bool :=
  p.toList.isPrefixOf s.toList

/-- Model of JavaScript `String.prototype.includes` for a single character. -/
def strContainsChar (s : String) (c : Char) : Bool :=
  s.toList.contains c

/-- ASCII lower-casing of one character (enough for the header names used). -/
def asciiToLower (c : Char) : Char :=
  if 'A' ≤ c ∧ c ≤ 'Z' then Char.ofNat (c.toNat + 32) else c

/-- ASCII lower-casing of a string. -/
def strToLower (s : String) : String :=
  String.mk (s.toList.map asciiToLower)

/-- Drop the first `n` characters of a string. -/
def strDrop (s : String) (n : Nat) : String :=
  String.mk (s.toList.drop n)

/-- JavaScript truthiness for an optional string: `null`/`undefined` and the
empty string are falsy (`if (token)`, `if (resultsMatching)`, …). -/
def strTruthy : Option String → Option String
  | some s => if s = "" then none else some s
  | none => none

/-- JavaScript whitespace accepted by `parseInt` before the number. -/
def jsWhitespace (c : Char) : Bool :=
  c = ' ' || c = '\t' || c = '\n' || c = '\r' || c = '\x0b' || c = '\x0c'

/-- Value of a list of decimal digit characters. -/
def digitsVal (l : List Char) : Nat :=
  l.foldl (fun a c => a * 10 + (c.toNat - 48)) 0

/-- Model of JavaScript `parseInt(s, 10)`: skip leading whitespace, optional
sign, then the longest prefix of decimal digits; `none` models `NaN`. -/
def jsParseInt (s : String) : Option Int :=
  let cs := s.toList.dropWhile jsWhitespace
  let signed : Int × List Char :=
    match cs with
    | '-' :: t => (-1, t)
    | '+' :: t => (1, t)
    | _ => (1, cs)
  let ds := signed.2.takeWhile Char.isDigit
  if ds.isEmpty then none else some (signed.1 * (digitsVal ds : Int))

/-- Model of `Headers.get`: case-insensitive lookup of the first matching
header, `none` for an absent header. -/
def headersGet (hs : List (String × String)) (name : String) : Option String :=
  (hs.find? (fun p => strToLower p.1 = strToLower name)).map Prod.snd

/-- The guarded numeric-header rule of `parseHeaders` (lines 264-279):
`if (raw) { const value = parseInt(raw, 10); if (!isNaN(value) && value >= 0) … }`. -/
def parseNonNeg (raw : Option String) : Option Nat :=
  match strTruthy raw with
  | none => none
  | some s =>
    match jsParseInt s with
    | none => none
    | some v => if 0 ≤ v then some v.toNat else none

/-- The metadata fields `parseHeaders` may attach (the `Partial<IApiResponse>`
it builds). -/
structure HeaderFields where
  total : Option Nat := none
  skipped : Option Nat := none
  link : Option String := none
  serverDateDiff : Option Int := none
deriving Repr, DecidableEq

/-- Embedding of `ApiFetch.parseHeaders` (lines 260-306): extract `Results-Matching`,
`Results-Skipped`, `Link` and `Date` from the response headers. `parseDate` is
the platform `new Date(s).getTime()` oracle (`none` = invalid date, i.e. `NaN`);
`now` is the local clock; `cache` is the instance field `serverDateDiff` before
the call. Returns the metadata fields and the new value of the cache. -/
def parseHeaders (hs : List (String × String)) (parseDate : String → Option Int)
    (now : Int) (cache : Int) : HeaderFields × Int :=
  let total := parseNonNeg (headersGet hs "Results-Matching")
  let skipped := parseNonNeg (headersGet hs "Results-Skipped")
  let link := strTruthy (headersGet hs "Link")
  match strTruthy (headersGet hs "Date") with
  | none => ({ total := total, skipped := skipped, link := link }, cache)
  | some d =>
    match parseDate d with
    | none => ({ total := total, skipped := skipped, link := link }, cache)
    | some serverTime =>
      let diff := now - serverTime
      ({ total := total, skipped := skipped, link := link,
         serverDateDiff := some diff }, diff)

/-- Embedding of `Response.ok` of the Fetch standard: status in the range 200-299. -/
def fetchOk (status : Nat) : Bool :=
  200 ≤ status && status ≤ 299

/-- Which decode the calling method requests (`'json' | 'text'`). -/
inductive BodyKind where
  | json
  | text
deriving Repr, DecidableEq

/-- A delivered transport response: status line, headers, and the result of the
body decode the method will run (`Except.error` models a rejected
`response.json()` / `response.text()`). -/
structure JsResponse (β : Type) where
  status : Nat
  statusText : String
  headers : List (String × String)
  body : Except Unit β
deriving Repr

/-- A JavaScript thrown value as `handleError` inspects it: an `Error` instance
with a `name` and a `message`, or any non-`Error` value. -/
inductive JsError where
  | error (name : String) (message : String)
  | nonError
deriving Repr, DecidableEq

/-- Behaviour of one transport invocation: it throws, or delivers a response. -/
inductive FetchBehavior (β : Type) where
  | throws (e : JsError)
  | responds (r : JsResponse β)
deriving Repr

/-- The parse-failure message of `handleResponse`
(`Failed to parse ${type === 'json' ? 'JSON' : 'text'} response`). -/
def parseFailMessage (kind : BodyKind) : String :=
  "Failed to parse " ++ (match kind with | .json => "JSON" | .text => "text") ++ " response"

/-- The HTTP-error message of `handleResponse`
(`Request failed: ${response.status} ${response.statusText}`). -/
def requestFailedMessage (status : Nat) (statusText : String) : String :=
  "Request failed: " ++ toString status ++ " " ++ statusText

/-- Embedding of `ApiFetch.handleResponse` (lines 325-373): parse the metadata headers, short
circuit 204, otherwise decode the body and classify by `response.ok`; a failed
decode becomes a parse-failure outcome. Returns the outcome together with the
new `serverDateDiff` cache. -/
def handleResponse {β : Type} (r : JsResponse β) (kind : BodyKind)
    (parseDate : String → Option Int) (now : Int) (cache : Int) :
    IApiResponse β × Int :=
  let parsed := parseHeaders r.headers parseDate now cache
  let h := parsed.1
  if r.status = 204 then
    ({ ok := true, status := some 204,
       total := h.total, skipped := h.skipped, link := h.link,
       serverDateDiff := h.serverDateDiff }, parsed.2)
  else
    match r.body with
    | .ok d =>
      if !(fetchOk r.status) then
        ({ ok := false, status := some r.status, data := some d,
           error := some { message := requestFailedMessage r.status r.statusText,
                           status := some r.status,
                           statusText := some r.statusText },
           total := h.total, skipped := h.skipped, link := h.link,
           serverDateDiff := h.serverDateDiff }, parsed.2)
      else
        ({ ok := true, status := some r.status, data := some d,
           total := h.total, skipped := h.skipped, link := h.link,
           serverDateDiff := h.serverDateDiff }, parsed.2)
    | .error _ =>
      ({ ok := false, status := some r.status,
         error := some { message := parseFailMessage kind },
         total := h.total, skipped := h.skipped, link := h.link,
         serverDateDiff := h.serverDateDiff }, parsed.2)

/-- Embedding of `ApiFetch.handleError` (lines 383-401): an `Error` named `AbortError`
becomes the fixed aborted message; any other `Error` contributes its own
message; a non-`Error` thrown value gets the generic message. No branch sets a
status. -/
def handleError {β : Type} (e : JsError) : IApiResponse β :=
  match e with
  | .error name msg =>
    if name = "AbortError" then
      { ok := false, error := some { message := "Request aborted" } }
    else
      { ok := false, error := some { message := msg } }
  | .nonError =>
    { ok := false, error := some { message := "Network request failed" } }

/-- Embedding of `ApiFetch.composeUrl` (lines 226-245), the private per-call composer:
prepend `/` when the endpoint lacks it, concatenate with `apiUrl`, and append
`token=` with `?`/`&` chosen by whether the endpoint contains `?`. -/
def composeUrl (conf : IApiConf) (endpoint : String) : String :=
  let normalizedEndpoint := if strStartsWith endpoint "/" then endpoint else "/" ++ endpoint
  let hasQueryParams := strContainsChar normalizedEndpoint '?'
  let url := conf.apiUrl ++ normalizedEndpoint
  match strTruthy conf.token with
  | some t => url ++ (if hasQueryParams then "&" else "?") ++ "token=" ++ t
  | none => url

/-- The absolute-URL test `^((http|https):\/\/)` used by `composePath`. -/
def isAbsoluteHttp (path : String) : Bool :=
  strStartsWith path "http://" || strStartsWith path "https://"

/-- A parsed WHATWG URL, on the http(s) fragment this adapter can produce:
scheme, nonempty host (up to the first `/`, `?` or `#`), and the raw remainder
(path, query and fragment). -/
structure JsUrl where
  scheme : String
  host : String
  rest : String
deriving Repr, DecidableEq

/-- Split a string at the first character satisfying `p` (the split character
stays in the second component). -/
def splitAtFirst (p : Char → Bool) (s : String) : String × String :=
  let pre := s.toList.takeWhile (fun c => !(p c))
  (String.mk pre, String.mk (s.toList.drop pre.length))

/-- Model of the WHATWG `URL(input)` constructor on the http(s) fragment: the
input must start with `http://` or `https://` and have a nonempty host;
everything else is a parse failure (the constructor throwing `TypeError`).
Inputs outside this fragment (other schemes) do not arise from this adapter's
http(s) base URLs. -/
def urlParse (p : String) : Except Unit JsUrl :=
  let parsed : Option (String × String) :=
    if strStartsWith p "http://" then some ("http", strDrop p 7)
    else if strStartsWith p "https://" then some ("https", strDrop p 8)
    else none
  match parsed with
  | none => .error ()
  | some (scheme, tail) =>
    let hr := splitAtFirst (fun c => c = '/' || c = '?' || c = '#') tail
    if hr.1 = "" then .error ()
    else .ok { scheme := scheme, host := hr.1, rest := hr.2 }

/-- Model of `url.searchParams.append(name, value)` followed by
`url.toString()`: insert `name=value` before any fragment, choosing `?`/`&` by
whether a query is already present; an empty path serializes as `/`. -/
def urlAppendParam (u : JsUrl) (name value : String) : String :=
  let fr := splitAtFirst (fun c => c = '#') u.rest
  let sep := if strContainsChar fr.1 '?' then "&" else "?"
  let rest := fr.1 ++ sep ++ name ++ "=" ++ value ++ fr.2
  u.scheme ++ "://" ++ u.host ++ (if strStartsWith rest "/" then rest else "/" ++ rest)

/-- Embedding of `ApiFetch.composePath` (lines 196-219), the public composer: pass absolute
http(s) paths through, otherwise concatenate `apiUrl + path`; when a (truthy)
token is configured the result is pushed through `new URL(p)` — which throws on
an unparseable input, modelled as `Except.error` — and `access_token` is
appended via the URL object. -/
def composePath (conf : IApiConf) (path : String) : Except Unit String :=
  let p := if isAbsoluteHttp path then path else conf.apiUrl ++ path
  match strTruthy conf.token with
  | some t =>
    match urlParse p with
    | .error _ => .error ()
    | .ok u => .ok (urlAppendParam u "access_token" t)
  | none => .ok p

/-- The mutable instance state of an `ApiFetch`: the `serverDateDiff` cache and
the auto-cancel `controller` slot (controller ids are numbers; `none` is
`undefined`). -/
structure AdapterState where
  serverDateDiff : Int := 0
  controller : Option Nat := none
deriving Repr, DecidableEq

/-- A freshly constructed adapter: `serverDateDiff = 0`, no controller. -/
def initialAdapterState : AdapterState := {}

/-- Embedding of `ApiFetch.getServerDateDiff` (lines 313-315). -/
def getServerDateDiff (st : AdapterState) : Int :=
  st.serverDateDiff

/-- The options record of `doGet` (`{signal?, useAbort?}`); the manual signal is
an opaque id. -/
structure GetOptions where
  signal : Option Nat := none
  useAbort : Bool := false
deriving Repr, DecidableEq

/-- Embedding of `ApiFetch.doGet` (lines 37-66) for one call in isolation: on `useAbort` a
fresh controller `freshId` occupies the slot; the try/catch sends a delivered
response through `handleResponse` (JSON decode) and a thrown value through
`handleError`; the `finally` block then unconditionally clears the slot when
`useAbort` was set. Returns the outcome and the new instance state. -/
def doGet {β : Type} (conf : IApiConf) (st : AdapterState) (endpoint : String)
    (opts : GetOptions) (fb : FetchBehavior β) (parseDate : String → Option Int)
    (now : Int) (freshId : Nat) : IApiResponse β × AdapterState :=
  let st1 := if opts.useAbort then { st with controller := some freshId } else st
  let _url := composeUrl conf endpoint
  let stepped : IApiResponse β × Int :=
    match fb with
    | .responds r => handleResponse r .json parseDate now st1.serverDateDiff
    | .throws e => (handleError e, st1.serverDateDiff)
  let st2 := { st1 with serverDateDiff := stepped.2 }
  (stepped.1, if opts.useAbort then { st2 with controller := none } else st2)

/-- Embedding of `ApiFetch.doPost` (lines 71-88); the body only affects the wire, not the
outcome classification, so it is not a parameter of the model. -/
def doPost {β : Type} (conf : IApiConf) (st : AdapterState) (endpoint : String)
    (fb : FetchBehavior β) (parseDate : String → Option Int) (now : Int) :
    IApiResponse β × AdapterState :=
  let _url := composeUrl conf endpoint
  match fb with
  | .responds r =>
    let stepped := handleResponse r .json parseDate now st.serverDateDiff
    (stepped.1, { st with serverDateDiff := stepped.2 })
  | .throws e => (handleError e, st)

/-- Embedding of `ApiFetch.doPut` (lines 93-109). -/
def doPut {β : Type} (conf : IApiConf) (st : AdapterState) (endpoint : String)
    (fb : FetchBehavior β) (parseDate : String → Option Int) (now : Int) :
    IApiResponse β × AdapterState :=
  let _url := composeUrl conf endpoint
  match fb with
  | .responds r =>
    let stepped := handleResponse r .json parseDate now st.serverDateDiff
    (stepped.1, { st with serverDateDiff := stepped.2 })
  | .throws e => (handleError e, st)

/-- Embedding of `ApiFetch.doDelete` (lines 114-126). -/
def doDelete {β : Type} (conf : IApiConf) (st : AdapterState) (endpoint : String)
    (fb : FetchBehavior β) (parseDate : String → Option Int) (now : Int) :
    IApiResponse β × AdapterState :=
  let _url := composeUrl conf endpoint
  match fb with
  | .responds r =>
    let stepped := handleResponse r .json parseDate now st.serverDateDiff
    (stepped.1, { st with serverDateDiff := stepped.2 })
  | .throws e => (handleError e, st)

/-- Embedding of `ApiFetch.doPatch` (lines 131-147). -/
def doPatch {β : Type} (conf : IApiConf) (st : AdapterState) (endpoint : String)
    (fb : FetchBehavior β) (parseDate : String → Option Int) (now : Int) :
    IApiResponse β × AdapterState :=
  let _url := composeUrl conf endpoint
  match fb with
  | .responds r =>
    let stepped := handleResponse r .json parseDate now st.serverDateDiff
    (stepped.1, { st with serverDateDiff := stepped.2 })
  | .throws e => (handleError e, st)

/-- Embedding of `ApiFetch.doPostFile` (lines 152-168). -/
def doPostFile {β : Type} (conf : IApiConf) (st : AdapterState) (endpoint : String)
    (fb : FetchBehavior β) (parseDate : String → Option Int) (now : Int) :
    IApiResponse β × AdapterState :=
  let _url := composeUrl conf endpoint
  match fb with
  | .responds r =>
    let stepped := handleResponse r .json parseDate now st.serverDateDiff
    (stepped.1, { st with serverDateDiff := stepped.2 })
  | .throws e => (handleError e, st)

/-!
## Interleaving model for the auto-cancel slot

To reason about two concurrent `doGet({useAbort: true})` calls, the
slot-relevant lines of `doGet` are modelled as a small-step system over
scheduler events. Each auto-cancel call is identified by a number, which also
serves as the id of the `AbortController` it creates. `start i` performs lines
43-47 (`this.controller?.abort(); this.controller = new AbortController()`);
`settle i` performs the `finally` block, lines 60-65, which sets
`this.controller = undefined` unconditionally.
-/

/-- One scheduler event of an interleaving of auto-cancel GET calls. -/
inductive AbortEvent where
  | start (callId : Nat)
  | settle (callId : Nat)
deriving Repr, DecidableEq

/-- The state visible to the auto-cancel logic: the `this.controller` slot, the
set of controllers whose `abort()` has been called, and the calls currently in
flight. -/
structure AbortSysState where
  slot : Option Nat := none
  aborted : List Nat := []
  inFlight : List Nat := []
deriving Repr, DecidableEq

/-- One step of the auto-cancel system, as the code implements it. -/
def abortStep (s : AbortSysState) : AbortEvent → AbortSysState
  | .start i =>
    { slot := some i,
      aborted := match s.slot with
        | some c => c :: s.aborted
        | none => s.aborted,
      inFlight := i :: s.inFlight }
  | .settle i =>
    { s with slot := none, inFlight := s.inFlight.erase i }

/-- Run a sequence of scheduler events from the fresh-adapter state. -/
def abortRun (es : List AbortEvent) : AbortSysState :=
  es.foldl abortStep {}

/-- Embedding of `ApiFetch.doGetText` (lines 173-185): like `doGet` without options, with the
text decode. -/
def doGetText (conf : IApiConf) (st : AdapterState) (endpoint : String)
    (fb : FetchBehavior String) (parseDate : String → Option Int) (now : Int) :
    IApiResponse String × AdapterState :=
  let _url := composeUrl conf endpoint
  match fb with
  | .responds r =>
    let stepped := handleResponse r .text parseDate now st.serverDateDiff
    (stepped.1, { st with serverDateDiff := stepped.2 })
  | .throws e => (handleError e, st)

/-!
## Theorems
-/

/-- An outcome is well formed when `ok` discriminates it: a success carries no
error object, a failure always carries one. -/
def WellFormedOutcome {β : Type} (r : IApiResponse β) : Prop :=
  (r.ok = true ∧ r.error = none) ∨ (r.ok = false ∧ r.error.isSome = true)

theorem wellFormed_handleResponse {β : Type} (r : JsResponse β) (kind : BodyKind)
    (pd : String → Option Int) (now cache : Int) :
    WellFormedOutcome (handleResponse r kind pd now cache).1 := by
  obtain ⟨s, stx, hs, body⟩ := r
  by_cases h : s = 204
  · subst h
    simp [handleResponse, WellFormedOutcome]
  · cases body with
    | ok d =>
      cases hok : fetchOk s <;> simp [handleResponse, h, hok, WellFormedOutcome]
    | error e =>
      simp [handleResponse, h, WellFormedOutcome]

theorem wellFormed_handleError {β : Type} (e : JsError) :
    WellFormedOutcome (handleError (β := β) e) := by
  cases e with
  | error name msg =>
    by_cases h : name = "AbortError" <;> simp [handleError, h, WellFormedOutcome]
  | nonError =>
    simp [handleError, WellFormedOutcome]

/-- Claim C1: Every adapter operation (`doGet`, `doGetText`, `doPost`, `doPut`,
`doDelete`, `doPatch`, `doPostFile`), under every transport behaviour (a
response of any status, headers and body-decode result, a thrown error, an
abort), returns a well-formed `IApiResponse` outcome — the embedding functions
are total, so no exception escapes to the caller, and the outcome always has
`ok` discriminating success (no error object) from failure (an error object
present). -/
theorem C1_operations_always_resolve_to_outcomes {β : Type}
    (conf : IApiConf) (st : AdapterState) (endpoint : String) (opts : GetOptions)
    (fb : FetchBehavior β) (fbt : FetchBehavior String)
    (parseDate : String → Option Int) (now : Int) (freshId : Nat) :
    WellFormedOutcome (doGet conf st endpoint opts fb parseDate now freshId).1 ∧
    WellFormedOutcome (doPost conf st endpoint fb parseDate now).1 ∧
    WellFormedOutcome (doPut conf st endpoint fb parseDate now).1 ∧
    WellFormedOutcome (doDelete conf st endpoint fb parseDate now).1 ∧
    WellFormedOutcome (doPatch conf st endpoint fb parseDate now).1 ∧
    WellFormedOutcome (doPostFile conf st endpoint fb parseDate now).1 ∧
    WellFormedOutcome (doGetText conf st endpoint fbt parseDate now).1 := by
  refine ⟨?_, ?_, ?_, ?_, ?_, ?_, ?_⟩
  · cases fb with
    | responds r =>
      simpa [doGet] using wellFormed_handleResponse r .json parseDate now
        (if opts.useAbort then { st with controller := some freshId } else st).serverDateDiff
    | throws e => simpa [doGet] using wellFormed_handleError (β := β) e
  · cases fb with
    | responds r =>
      simpa [doPost] using wellFormed_handleResponse r .json parseDate now st.serverDateDiff
    | throws e => simpa [doPost] using wellFormed_handleError (β := β) e
  · cases fb with
    | responds r =>
      simpa [doPut] using wellFormed_handleResponse r .json parseDate now st.serverDateDiff
    | throws e => simpa [doPut] using wellFormed_handleError (β := β) e
  · cases fb with
    | responds r =>
      simpa [doDelete] using wellFormed_handleResponse r .json parseDate now st.serverDateDiff
    | throws e => simpa [doDelete] using wellFormed_handleError (β := β) e
  · cases fb with
    | responds r =>
      simpa [doPatch] using wellFormed_handleResponse r .json parseDate now st.serverDateDiff
    | throws e => simpa [doPatch] using wellFormed_handleError (β := β) e
  · cases fb with
    | responds r =>
      simpa [doPostFile] using wellFormed_handleResponse r .json parseDate now st.serverDateDiff
    | throws e => simpa [doPostFile] using wellFormed_handleError (β := β) e
  · cases fbt with
    | responds r =>
      simpa [doGetText] using wellFormed_handleResponse r .text parseDate now st.serverDateDiff
    | throws e => simpa [doGetText] using wellFormed_handleError (β := String) e

/-- Claim C2, counterexample: For a response of status 500 / `Internal Server
Error` whose body decodes successfully, the outcome's message is
`"Request failed: 500 Internal Server Error"` (capital `R`), not the claimed
exact string `"request failed: 500 Internal Server Error"`. -/
theorem C2_counterexample_message_capitalization :
    ((handleResponse (β := String)
        ⟨500, "Internal Server Error", [], Except.ok "x"⟩ .json
        (fun _ => none) 0 0).1.error.map IApiError.message) =
      some "Request failed: 500 Internal Server Error" ∧
    ((handleResponse (β := String)
        ⟨500, "Internal Server Error", [], Except.ok "x"⟩ .json
        (fun _ => none) 0 0).1.error.map IApiError.message) ≠
      some "request failed: 500 Internal Server Error" := by
  constructor
  · rfl
  · decide

/-- Claim C2, amended: For every response whose body decodes successfully and
whose status lies outside the 2xx range, the outcome is a Failure carrying the
status, the statusText, the message `"Request failed: <status> <statusText>"`
(capital `R`, as the code and its interface documentation spell it), the
decoded body as `data`, and the parsed header metadata. -/
theorem C2_http_error_failure_outcome {β : Type} (r : JsResponse β)
    (kind : BodyKind) (pd : String → Option Int) (now cache : Int) (d : β)
    (hbody : r.body = Except.ok d) (hstatus : ¬(200 ≤ r.status ∧ r.status ≤ 299)) :
    (handleResponse r kind pd now cache).1 =
      { ok := false, status := some r.status, data := some d,
        error := some ⟨requestFailedMessage r.status r.statusText,
                       some r.status, some r.statusText⟩,
        total := (parseHeaders r.headers pd now cache).1.total,
        skipped := (parseHeaders r.headers pd now cache).1.skipped,
        link := (parseHeaders r.headers pd now cache).1.link,
        serverDateDiff := (parseHeaders r.headers pd now cache).1.serverDateDiff } := by
  have h204 : r.status ≠ 204 := by
    intro h
    exact hstatus ⟨by omega, by omega⟩
  have hok : fetchOk r.status = false := by
    simp only [fetchOk, Bool.and_eq_false_iff, decide_eq_false_iff_not]
    omega
  obtain ⟨s, stx, hs, body⟩ := r
  simp only at hbody h204 hok ⊢
  subst hbody
  simp [handleResponse, h204, hok]

theorem C2_http_error_failure_outcome_witness :
    (handleResponse (β := String)
        ⟨500, "Internal Server Error", [("Results-Matching", "7")], Except.ok "x"⟩
        .json (fun _ => none) 0 0).1 =
      { ok := false, status := some 500, data := some "x",
        error := some ⟨requestFailedMessage 500 "Internal Server Error",
                       some 500, some "Internal Server Error"⟩,
        total := (parseHeaders [("Results-Matching", "7")] (fun _ => none) 0 0).1.total,
        skipped := (parseHeaders [("Results-Matching", "7")] (fun _ => none) 0 0).1.skipped,
        link := (parseHeaders [("Results-Matching", "7")] (fun _ => none) 0 0).1.link,
        serverDateDiff :=
          (parseHeaders [("Results-Matching", "7")] (fun _ => none) 0 0).1.serverDateDiff } :=
  C2_http_error_failure_outcome
    ⟨500, "Internal Server Error", [("Results-Matching", "7")], Except.ok "x"⟩
    .json (fun _ => none) 0 0 "x" rfl (by decide)

/-- Claim C3, counterexample: For a 200 response whose JSON decode fails, the
outcome's message is `"Failed to parse JSON response"` (capital `F`), not the
claimed `"failed to parse JSON response"`. -/
theorem C3_counterexample_message_capitalization :
    ((handleResponse (β := String) ⟨200, "OK", [], Except.error ()⟩ .json
        (fun _ => none) 0 0).1.error.map IApiError.message) =
      some "Failed to parse JSON response" ∧
    ((handleResponse (β := String) ⟨200, "OK", [], Except.error ()⟩ .json
        (fun _ => none) 0 0).1.error.map IApiError.message) ≠
      some "failed to parse JSON response" := by
  constructor
  · rfl
  · decide

/-- Claim C3, amended: For every non-204 response whose body fails to decode,
the outcome is a Failure whose message is `"Failed to parse JSON response"`
for the JSON methods and `"Failed to parse text response"` for `doGetText`
(capital `F`, as the code spells it), whose status is the original response
status, and which carries no body — regardless of whether the original status
was 2xx or not. -/
theorem C3_parse_failure_outcome {β : Type} (r : JsResponse β) (kind : BodyKind)
    (pd : String → Option Int) (now cache : Int)
    (h204 : r.status ≠ 204) (hbody : r.body = Except.error ()) :
    (handleResponse r kind pd now cache).1 =
      { ok := false, status := some r.status, data := none,
        error := some ⟨(match kind with
          | .json => "Failed to parse JSON response"
          | .text => "Failed to parse text response"), none, none⟩,
        total := (parseHeaders r.headers pd now cache).1.total,
        skipped := (parseHeaders r.headers pd now cache).1.skipped,
        link := (parseHeaders r.headers pd now cache).1.link,
        serverDateDiff := (parseHeaders r.headers pd now cache).1.serverDateDiff } := by
  obtain ⟨s, stx, hs, body⟩ := r
  simp only at hbody h204 ⊢
  subst hbody
  cases kind <;> simp [handleResponse, h204, parseFailMessage]

theorem C3_parse_failure_outcome_witness :
    (handleResponse (β := String) ⟨500, "Internal Server Error", [], Except.error ()⟩
        .text (fun _ => none) 0 0).1 =
      { ok := false, status := some 500, data := none,
        error := some ⟨"Failed to parse text response", none, none⟩,
        total := (parseHeaders [] (fun _ => none) 0 0).1.total,
        skipped := (parseHeaders [] (fun _ => none) 0 0).1.skipped,
        link := (parseHeaders [] (fun _ => none) 0 0).1.link,
        serverDateDiff := (parseHeaders [] (fun _ => none) 0 0).1.serverDateDiff } :=
  C3_parse_failure_outcome ⟨500, "Internal Server Error", [], Except.error ()⟩
    .text (fun _ => none) 0 0 (by decide) rfl

/-- Claim C4, counterexample: When the transport throws a non-`Error` value, the
outcome's message is `"Network request failed"` (capital `N`), not the claimed
generic message `"network request failed"`. -/
theorem C4_counterexample_message_capitalization :
    (handleError (β := Unit) JsError.nonError).error =
      some ⟨"Network request failed", none, none⟩ ∧
    ((handleError (β := Unit) JsError.nonError).error.map IApiError.message) ≠
      some "network request failed" := by
  constructor
  · rfl
  · decide

/-- Claim C4, amended: For every error thrown by the transport: an `Error` named
`AbortError` yields a Failure with message exactly `"Request aborted"`; any
other `Error` yields a Failure with the thrown error's message; a thrown
non-`Error` value yields the generic message `"Network request failed"`
(capital `N`, as the code spells it); in every case the Failure carries no
status code, neither at the top level nor inside the error object. -/
theorem C4_thrown_error_outcomes {β : Type} :
    (∀ msg, handleError (β := β) (.error "AbortError" msg) =
      { ok := false, error := some ⟨"Request aborted", none, none⟩ }) ∧
    (∀ name msg, name ≠ "AbortError" → handleError (β := β) (.error name msg) =
      { ok := false, error := some ⟨msg, none, none⟩ }) ∧
    (handleError (β := β) .nonError =
      { ok := false, error := some ⟨"Network request failed", none, none⟩ }) ∧
    (∀ e, (handleError (β := β) e).status = none ∧
      ((handleError (β := β) e).error.map IApiError.status) = some none) := by
  refine ⟨fun msg => by simp [handleError], fun name msg h => by simp [handleError, h],
    by simp [handleError], fun e => ?_⟩
  cases e with
  | error name msg =>
    by_cases h : name = "AbortError" <;> simp [handleError, h]
  | nonError => simp [handleError]

theorem C4_thrown_error_outcomes_witness :
    handleError (β := Unit) (.error "TypeError" "boom") =
      { ok := false, error := some ⟨"boom", none, none⟩ } :=
  (C4_thrown_error_outcomes (β := Unit)).2.1 "TypeError" "boom" (by decide)

/-- If `p` begins with character `c`, any string that starts with `p` has `c`
as its first character. -/
theorem strStartsWith_head {e p : String} {c : Char} {cs : List Char}
    (hp : p.toList = c :: cs) (h : strStartsWith e p = true) :
    ∃ t, e.toList = c :: t := by
  unfold strStartsWith at h
  rw [hp] at h
  cases he : e.toList with
  | nil => rw [he] at h; simp [List.isPrefixOf] at h
  | cons d ds =>
    rw [he] at h
    simp [List.isPrefixOf, Bool.and_eq_true, beq_iff_eq] at h
    exact ⟨ds, by rw [h.1]⟩

/-- An absolute `http(s)://` path does not start with `/`. -/
theorem absolute_not_slash {e : String} (h : isAbsoluteHttp e = true) :
    strStartsWith e "/" = false := by
  cases hb : strStartsWith e "/" with
  | false => rfl
  | true =>
    exfalso
    obtain ⟨t, ht⟩ := strStartsWith_head (p := "/") rfl hb
    have h' : strStartsWith e "http://" = true ∨ strStartsWith e "https://" = true := by
      simpa [isAbsoluteHttp] using h
    rcases h' with h1 | h1
    · obtain ⟨t', ht'⟩ := strStartsWith_head (p := "http://") rfl h1
      rw [ht] at ht'
      exact absurd (List.head_eq_of_cons_eq ht') (by decide)
    · obtain ⟨t', ht'⟩ := strStartsWith_head (p := "https://") rfl h1
      rw [ht] at ht'
      exact absurd (List.head_eq_of_cons_eq ht') (by decide)

/-- Claim C5, counterexample: The internal composer does not pass absolute URLs
through: with base `http://h/api` and no token, `composeUrl` applied to the
absolute path `http://x.com/a` returns the concatenation
`http://h/api/http://x.com/a`, not the path unchanged. It also fixes a missing
leading slash instead of reproducing it: the path `things` yields
`http://h/api/things`, not the separator-free concatenation
`http://h/apithings`. -/
theorem C5_counterexample_no_absolute_passthrough :
    composeUrl ⟨"http://h/api", none⟩ "http://x.com/a" =
      "http://h/api/http://x.com/a" ∧
    composeUrl ⟨"http://h/api", none⟩ "http://x.com/a" ≠ "http://x.com/a" ∧
    composeUrl ⟨"http://h/api", none⟩ "things" = "http://h/api/things" ∧
    composeUrl ⟨"http://h/api", none⟩ "things" ≠ "http://h/api" ++ "things" := by
  refine ⟨rfl, by decide, rfl, by decide⟩

/-- Claim C5, amended: The internal per-call composer (`composeUrl`) never
passes a path through unchanged — absolute or not, the path is prefixed with
`/` when that separator is missing (so a missing slash is fixed, not
reproduced) and concatenated after the base URL; a configured token is appended
as `token=` with `?`/`&` chosen by whether the endpoint already contains `?`.
In particular every absolute `http(s)://` path yields a result different from
the path itself. -/
theorem C5_internal_composer_behavior :
    (∀ apiUrl e : String, strStartsWith e "/" = true →
      composeUrl ⟨apiUrl, none⟩ e = apiUrl ++ e) ∧
    (∀ apiUrl e : String, strStartsWith e "/" = false →
      composeUrl ⟨apiUrl, none⟩ e = apiUrl ++ ("/" ++ e)) ∧
    (∀ apiUrl t e : String, t ≠ "" → strStartsWith e "/" = true →
      strContainsChar e '?' = false →
      composeUrl ⟨apiUrl, some t⟩ e = apiUrl ++ e ++ "?" ++ "token=" ++ t) ∧
    (∀ apiUrl t e : String, t ≠ "" → strStartsWith e "/" = true →
      strContainsChar e '?' = true →
      composeUrl ⟨apiUrl, some t⟩ e = apiUrl ++ e ++ "&" ++ "token=" ++ t) ∧
    (∀ apiUrl e : String, isAbsoluteHttp e = true →
      composeUrl ⟨apiUrl, none⟩ e ≠ e) := by
  refine ⟨?_, ?_, ?_, ?_, ?_⟩
  · intro apiUrl e hs
    simp [composeUrl, strTruthy, hs]
  · intro apiUrl e hs
    simp [composeUrl, strTruthy, hs]
  · intro apiUrl t e ht hs hq
    simp [composeUrl, strTruthy, ht, hs, hq, String.append_assoc]
  · intro apiUrl t e ht hs hq
    simp [composeUrl, strTruthy, ht, hs, hq, String.append_assoc]
  · intro apiUrl e habs
    have hs := absolute_not_slash habs
    simp [composeUrl, strTruthy, hs]
    intro hEq
    have hlen := congrArg String.length hEq
    rw [String.length_append, String.length_append] at hlen
    have h1 : ("/" : String).length = 1 := rfl
    omega

theorem C5_internal_composer_behavior_witness :
    composeUrl ⟨"http://h/api", none⟩ "/things" = "http://h/api" ++ "/things" ∧
    composeUrl ⟨"http://h/api", none⟩ "things" = "http://h/api" ++ ("/" ++ "things") ∧
    composeUrl ⟨"http://h/api", some "tk"⟩ "/things" =
      "http://h/api" ++ "/things" ++ "?" ++ "token=" ++ "tk" ∧
    composeUrl ⟨"http://h/api", some "tk"⟩ "/things?a=1" =
      "http://h/api" ++ "/things?a=1" ++ "&" ++ "token=" ++ "tk" ∧
    composeUrl ⟨"http://h/api", none⟩ "https://x.com/a" ≠ "https://x.com/a" :=
  ⟨C5_internal_composer_behavior.1 "http://h/api" "/things" (by decide),
   C5_internal_composer_behavior.2.1 "http://h/api" "things" (by decide),
   C5_internal_composer_behavior.2.2.1 "http://h/api" "tk" "/things"
     (by decide) (by decide) (by decide),
   C5_internal_composer_behavior.2.2.2.1 "http://h/api" "tk" "/things?a=1"
     (by decide) (by decide) (by decide),
   C5_internal_composer_behavior.2.2.2.2 "http://h/api" "https://x.com/a" (by decide)⟩

/-- Claim C6: Evidence for the auto-cancel slot bug: in the interleaving where
auto-cancel call 0 starts, auto-cancel call 1 starts (aborting call 0's
controller and occupying the slot), and then call 0 settles, the `finally`
block clears the slot unconditionally even though the slot holds call 1's
controller — so the slot is `none` while call 1 is still in flight, and a third
auto-cancel call started next aborts nothing: the still-in-flight call 1 is
never cancelled, contradicting both the "cleared only if it still refers to
that call" clause and the "cancel any previously issued auto-cancel GET still
in flight" guarantee. -/
theorem C6_autocancel_slot_clobbered :
    (abortRun [.start 0, .start 1, .settle 0]).slot = none ∧
    (abortRun [.start 0, .start 1, .settle 0]).inFlight = [1] ∧
    (abortRun [.start 0, .start 1, .settle 0]).aborted = [0] ∧
    (abortRun [.start 0, .start 1, .settle 0, .start 2]).inFlight = [2, 1] ∧
    (abortRun [.start 0, .start 1, .settle 0, .start 2]).aborted = [0] ∧
    1 ∉ (abortRun [.start 0, .start 1, .settle 0, .start 2]).aborted := by
  decide

/-- Claim C7, counterexample: With base URL `/api` (a same-origin relative base)
and a configured token, `composePath("/things")` does not return
`"/api/things?access_token=t"`: the composed string `/api/things` is not a
parseable absolute URL, so the `new URL(p)` call throws a `TypeError`
(modelled as `Except.error`). -/
theorem C7_counterexample_token_path_throws :
    composePath ⟨"/api", some "t"⟩ "/things" = Except.error () ∧
    composePath ⟨"/api", some "t"⟩ "/things" ≠
      Except.ok "/api/things?access_token=t" :=
  ⟨rfl, fun h => Except.noConfusion
    (show (Except.error () : Except Unit String) =
        Except.ok "/api/things?access_token=t" from h)⟩

/-- Claim C7, amended: With no (truthy) token configured, `composePath` returns
the path unchanged when it is absolute and the raw concatenation `base + path`
otherwise, and never throws. With a token configured, the composed string is
passed through the WHATWG `URL` constructor: when it is not a parseable
absolute URL, `composePath` throws a `TypeError` instead of returning a string;
when it parses, `access_token=<t>` is appended via the URL object (as in the
concrete case of base `http://h/api` and path `/things`). -/
theorem C7_composePath_token_behavior :
    (∀ (conf : IApiConf) (path : String), strTruthy conf.token = none →
      composePath conf path =
        Except.ok (if isAbsoluteHttp path then path else conf.apiUrl ++ path)) ∧
    (∀ apiUrl t path : String, t ≠ "" → isAbsoluteHttp path = false →
      urlParse (apiUrl ++ path) = Except.error () →
      composePath ⟨apiUrl, some t⟩ path = Except.error ()) ∧
    (composePath ⟨"http://h/api", some "t"⟩ "/things" =
      Except.ok "http://h/api/things?access_token=t") := by
  refine ⟨?_, ?_, rfl⟩
  · intro conf path h
    cases habs : isAbsoluteHttp path <;> simp [composePath, h, habs]
  · intro apiUrl t path ht habs hparse
    simp [composePath, strTruthy, ht, habs, hparse]

theorem C7_composePath_token_behavior_witness :
    composePath ⟨"http://h/api", none⟩ "/things" =
      Except.ok (if isAbsoluteHttp "/things" then "/things"
        else "http://h/api" ++ "/things") ∧
    composePath ⟨"/base", some "tok"⟩ "/x" = Except.error () :=
  ⟨C7_composePath_token_behavior.1 ⟨"http://h/api", none⟩ "/things" rfl,
   C7_composePath_token_behavior.2.1 "/base" "tok" "/x"
     (by decide) (by decide) rfl⟩

/-- Claim C10: When a (truthy) auth token is configured, `composePath` pushes the
composed string through the WHATWG `URL` constructor before appending
`access_token`, so whenever that string is not a parseable absolute URL the
call throws a `TypeError` to its caller (an `Except.error`) instead of
returning a string; with no token configured it never throws and returns the
unnormalized string (the absolute path unchanged, or the raw concatenation
`base + path`). -/
theorem C10_composePath_url_constructor_throw :
    (∀ apiUrl t path : String, strTruthy (some t) = some t →
      urlParse (if isAbsoluteHttp path then path else apiUrl ++ path) =
        Except.error () →
      composePath ⟨apiUrl, some t⟩ path = Except.error ()) ∧
    (∀ (conf : IApiConf) (path : String), strTruthy conf.token = none →
      composePath conf path =
        Except.ok (if isAbsoluteHttp path then path else conf.apiUrl ++ path)) := by
  constructor
  · intro apiUrl t path ht hparse
    simp [composePath, ht, hparse]
  · intro conf path h
    cases habs : isAbsoluteHttp path <;> simp [composePath, h, habs]

theorem C10_composePath_url_constructor_throw_witness :
    composePath ⟨"/api/v2", some "secret"⟩ "/campaigns" = Except.error () ∧
    composePath ⟨"/api/v2", none⟩ "/campaigns" =
      Except.ok (if isAbsoluteHttp "/campaigns" then "/campaigns"
        else "/api/v2" ++ "/campaigns") :=
  ⟨C10_composePath_url_constructor_throw.1 "/api/v2" "secret" "/campaigns"
     rfl rfl,
   C10_composePath_url_constructor_throw.2 ⟨"/api/v2", none⟩ "/campaigns" rfl⟩

/-- The metadata fields and the returned cache of `handleResponse` come from
`parseHeaders`, in every branch (204, decode success with 2xx or non-2xx
status, decode failure). -/
theorem handleResponse_metadata {β : Type} (r : JsResponse β) (kind : BodyKind)
    (pd : String → Option Int) (now cache : Int) :
    (handleResponse r kind pd now cache).1.total =
      (parseHeaders r.headers pd now cache).1.total ∧
    (handleResponse r kind pd now cache).1.skipped =
      (parseHeaders r.headers pd now cache).1.skipped ∧
    (handleResponse r kind pd now cache).1.link =
      (parseHeaders r.headers pd now cache).1.link ∧
    (handleResponse r kind pd now cache).1.serverDateDiff =
      (parseHeaders r.headers pd now cache).1.serverDateDiff ∧
    (handleResponse r kind pd now cache).2 =
      (parseHeaders r.headers pd now cache).2 := by
  obtain ⟨s, stx, hs, body⟩ := r
  by_cases h : s = 204
  · subst h; simp [handleResponse]
  · cases body with
    | ok d => cases hok : fetchOk s <;> simp [handleResponse, h, hok]
    | error e => simp [handleResponse, h]

/-- The `total`, `skipped` and `link` fields built by `parseHeaders` do not
depend on the `Date` branch. -/
theorem parseHeaders_fields (hs : List (String × String))
    (pd : String → Option Int) (now cache : Int) :
    (parseHeaders hs pd now cache).1.total =
      parseNonNeg (headersGet hs "Results-Matching") ∧
    (parseHeaders hs pd now cache).1.skipped =
      parseNonNeg (headersGet hs "Results-Skipped") ∧
    (parseHeaders hs pd now cache).1.link =
      strTruthy (headersGet hs "Link") := by
  cases hd : strTruthy (headersGet hs "Date") with
  | none => simp [parseHeaders, hd]
  | some d => cases hpd : pd d <;> simp [parseHeaders, hd, hpd]

/-- A present, nonempty, parseable `Date` header updates the cache and the
outcome field with `now − serverTime`. -/
theorem parseHeaders_date_parsed (hs : List (String × String))
    (pd : String → Option Int) (now cache : Int) (v : String) (t : Int)
    (hv : headersGet hs "Date" = some v) (hne : v ≠ "") (hpd : pd v = some t) :
    (parseHeaders hs pd now cache).1.serverDateDiff = some (now - t) ∧
    (parseHeaders hs pd now cache).2 = now - t := by
  simp [parseHeaders, strTruthy, hv, hne, hpd]

/-- A present but unparseable `Date` header leaves the cache untouched and
contributes no outcome field. -/
theorem parseHeaders_date_malformed (hs : List (String × String))
    (pd : String → Option Int) (now cache : Int) (v : String)
    (hv : headersGet hs "Date" = some v) (hne : v ≠ "") (hpd : pd v = none) :
    (parseHeaders hs pd now cache).1.serverDateDiff = none ∧
    (parseHeaders hs pd now cache).2 = cache := by
  simp [parseHeaders, strTruthy, hv, hne, hpd]

/-- Claim C8: Metadata header parsing runs on every received response regardless
of status or decode outcome: the outcome's `total` (resp. `skipped`) is always
the guarded parse of the `Results-Matching` (resp. `Results-Skipped`) header;
in particular a header value `42` yields `total = some 42` while an unparseable
(`abc`) or negative (`-5`) value yields no field at all — absent, never
defaulted to 0. -/
theorem C8_metadata_headers_regardless_of_status {β : Type} :
    (∀ (r : JsResponse β) (kind : BodyKind) (pd : String → Option Int)
        (now cache : Int),
      (handleResponse r kind pd now cache).1.total =
        parseNonNeg (headersGet r.headers "Results-Matching") ∧
      (handleResponse r kind pd now cache).1.skipped =
        parseNonNeg (headersGet r.headers "Results-Skipped")) ∧
    (∀ (status : Nat) (stx : String) (body : Except Unit β) (kind : BodyKind)
        (pd : String → Option Int) (now cache : Int),
      (handleResponse ⟨status, stx, [("Results-Matching", "42")], body⟩
        kind pd now cache).1.total = some 42 ∧
      (handleResponse ⟨status, stx, [("Results-Matching", "abc")], body⟩
        kind pd now cache).1.total = none ∧
      (handleResponse ⟨status, stx, [("Results-Matching", "-5")], body⟩
        kind pd now cache).1.total = none ∧
      (handleResponse ⟨status, stx, [("Results-Skipped", "42")], body⟩
        kind pd now cache).1.skipped = some 42 ∧
      (handleResponse ⟨status, stx, [("Results-Skipped", "abc")], body⟩
        kind pd now cache).1.skipped = none) := by
  have base : ∀ (r : JsResponse β) (kind : BodyKind) (pd : String → Option Int)
      (now cache : Int),
      (handleResponse r kind pd now cache).1.total =
        parseNonNeg (headersGet r.headers "Results-Matching") ∧
      (handleResponse r kind pd now cache).1.skipped =
        parseNonNeg (headersGet r.headers "Results-Skipped") := by
    intro r kind pd now cache
    obtain ⟨hm, hsk, -, -, -⟩ := handleResponse_metadata r kind pd now cache
    obtain ⟨hm', hsk', -⟩ := parseHeaders_fields r.headers pd now cache
    exact ⟨hm.trans hm', hsk.trans hsk'⟩
  refine ⟨base, fun status stx body kind pd now cache => ?_⟩
  refine ⟨?_, ?_, ?_, ?_, ?_⟩
  · rw [(base ⟨status, stx, [("Results-Matching", "42")], body⟩ kind pd now cache).1]
    dsimp only
    decide
  · rw [(base ⟨status, stx, [("Results-Matching", "abc")], body⟩ kind pd now cache).1]
    dsimp only
    decide
  · rw [(base ⟨status, stx, [("Results-Matching", "-5")], body⟩ kind pd now cache).1]
    dsimp only
    decide
  · rw [(base ⟨status, stx, [("Results-Skipped", "42")], body⟩ kind pd now cache).2]
    dsimp only
    decide
  · rw [(base ⟨status, stx, [("Results-Skipped", "abc")], body⟩ kind pd now cache).2]
    dsimp only
    decide

/-- Claim C9: On every response with a present, nonempty `Date` header that
parses, the skew is computed as `now − serverTime`, returned as the adapter's
new cached value and attached to the outcome; a malformed `Date` header leaves
the cache unchanged and contributes no `serverDateDiff` field; after a `doGet`
whose response carries a parseable `Date` header, `getServerDateDiff` on the
resulting state returns the new skew; and a fresh adapter reports 0. -/
theorem C9_clock_skew_behavior {β : Type} :
    (∀ (r : JsResponse β) (kind : BodyKind) (pd : String → Option Int)
        (now cache : Int) (v : String) (t : Int),
      headersGet r.headers "Date" = some v → v ≠ "" → pd v = some t →
      (handleResponse r kind pd now cache).2 = now - t ∧
      (handleResponse r kind pd now cache).1.serverDateDiff = some (now - t)) ∧
    (∀ (r : JsResponse β) (kind : BodyKind) (pd : String → Option Int)
        (now cache : Int) (v : String),
      headersGet r.headers "Date" = some v → v ≠ "" → pd v = none →
      (handleResponse r kind pd now cache).2 = cache ∧
      (handleResponse r kind pd now cache).1.serverDateDiff = none) ∧
    (∀ (conf : IApiConf) (st : AdapterState) (endpoint : String)
        (opts : GetOptions) (r : JsResponse β) (pd : String → Option Int)
        (now : Int) (freshId : Nat) (v : String) (t : Int),
      headersGet r.headers "Date" = some v → v ≠ "" → pd v = some t →
      getServerDateDiff
        (doGet conf st endpoint opts (.responds r) pd now freshId).2 = now - t) ∧
    getServerDateDiff initialAdapterState = 0 := by
  have core : ∀ (r : JsResponse β) (kind : BodyKind) (pd : String → Option Int)
      (now cache : Int) (v : String) (t : Int),
      headersGet r.headers "Date" = some v → v ≠ "" → pd v = some t →
      (handleResponse r kind pd now cache).2 = now - t ∧
      (handleResponse r kind pd now cache).1.serverDateDiff = some (now - t) := by
    intro r kind pd now cache v t hv hne hpd
    obtain ⟨-, -, -, hf, hc⟩ := handleResponse_metadata r kind pd now cache
    obtain ⟨hf', hc'⟩ := parseHeaders_date_parsed r.headers pd now cache v t hv hne hpd
    exact ⟨hc.trans hc', hf.trans hf'⟩
  refine ⟨core, ?_, ?_, rfl⟩
  · intro r kind pd now cache v hv hne hpd
    obtain ⟨-, -, -, hf, hc⟩ := handleResponse_metadata r kind pd now cache
    obtain ⟨hf', hc'⟩ := parseHeaders_date_malformed r.headers pd now cache v hv hne hpd
    exact ⟨hc.trans hc', hf.trans hf'⟩
  · intro conf st endpoint opts r pd now freshId v t hv hne hpd
    cases hu : opts.useAbort <;>
      simp [doGet, getServerDateDiff, hu,
        (core r .json pd now st.serverDateDiff v t hv hne hpd).1]

theorem C9_clock_skew_behavior_witness :
    (handleResponse (β := Unit) ⟨200, "OK", [("Date", "D")], Except.ok ()⟩ .json
      (fun _ => some 900) 1000 7).2 = 1000 - 900 ∧
    (handleResponse (β := Unit) ⟨200, "OK", [("Date", "D")], Except.ok ()⟩ .json
      (fun _ => some 900) 1000 7).1.serverDateDiff = some (1000 - 900) :=
  (C9_clock_skew_behavior (β := Unit)).1 ⟨200, "OK", [("Date", "D")], Except.ok ()⟩
    .json (fun _ => some 900) 1000 7 "D" 900 rfl (by decide) rfl

end ApiFetchSpec
